import Mathlib

/-!
Verification of the flowchart-view plugin's synchronization loop
(`src/Parley/Parley/Plugins/Official/flowchart-view/flowchart_plugin.py`)
and the RPC client wrappers (`src/Parley/Python/parley_plugin/client.py`).

Shallow embedding conventions:
* Every remote call's raw outcome is an `Except String α`: `.error e` stands
  for a raised `grpc.RpcError` whose `str()` is `e`, `.ok r` for a normal
  response message.  The client-layer functions below translate these raw
  outcomes exactly as `client.py` does (catch, print, fallback value).
* A `HostTick` record bundles the raw outcomes the host would deliver for
  each RPC during one poll tick of the plugin loop.
* Side effects are collected in an `Event` trace: one event per RPC request
  issued, plus one `Event.log` per `print` executed.
* The plugin object's mutable fields become the `PState` record; each method
  is a function `PState → ... → PState × List Event`.
* The 600-line HTML/JS template is abstracted as `Content.flowchart` carrying
  exactly the parameters the Python code substitutes into the template
  (`.format(dialog_name, node_count, dialog_data, speaker_colors, theme,
  selected_node_id)`); `Content.placeholder` is the static placeholder page.
* The md5-over-canonical-JSON fingerprint is abstracted as a parameter
  `fp : StructDict → Nat`; the code only ever compares fingerprints of the
  dict returned by `get_dialog_structure`, so any function of that dict is a
  faithful model and theorems quantify over `fp`.
-/

/-- One node dict as built by `ParleyClient.get_dialog_structure` (and by the
demo data).  Demo-data dicts omit some keys; omitted keys are embedded as the
default values `""`/`false`, which no code path distinguishes. -/
structure NodeDict where
  id : String
  type : String
  text : String
  speaker : String
  is_link : Bool := false
  link_target : String := ""
  has_condition : Bool := false
  has_action : Bool := false
  condition_script : String := ""
  action_script : String := ""
  deriving DecidableEq, Repr

/-- One link dict as built by `ParleyClient.get_dialog_structure`. -/
structure LinkDict where
  source : String
  target : String
  has_condition : Bool := false
  condition_script : String := ""
  deriving DecidableEq, Repr

/-- A node message of the `GetDialogStructure` gRPC response. -/
structure NodeMsg where
  id : String
  type : String
  text : String
  speaker : String
  is_link : Bool
  link_target : String
  has_condition : Bool
  has_action : Bool
  condition_script : String
  action_script : String
  deriving DecidableEq, Repr

/-- A link message of the `GetDialogStructure` gRPC response. -/
structure LinkMsg where
  source : String
  target : String
  has_condition : Bool
  condition_script : String
  deriving DecidableEq, Repr

/-- The `GetDialogStructure` gRPC response message. -/
structure StructureResponse where
  success : Bool
  error_message : String
  dialog_id : String
  dialog_name : String
  nodes : List NodeMsg
  links : List LinkMsg
  deriving DecidableEq, Repr

/-- The `GetTheme` gRPC response message. -/
structure ThemeResponse where
  theme_id : String
  theme_name : String
  is_dark : Bool
  deriving DecidableEq, Repr

/-- The `GetSpeakerColors` gRPC response message. -/
structure SpeakerColorsResponse where
  pc_color : String
  owner_color : String
  speaker_colors : List (String × String)
  pc_shape : String
  owner_shape : String
  speaker_shapes : List (String × String)
  deriving DecidableEq, Repr

/-- A Python value stored in the dict returned by `get_dialog_structure`. -/
inductive PyVal where
  | pybool : Bool → PyVal
  | pystr : String → PyVal
  | pynodes : List NodeDict → PyVal
  | pylinks : List LinkDict → PyVal
  deriving DecidableEq, Repr

/-- The dict returned by `get_dialog_structure`, as an association list so
that key presence is a meaningful proposition. -/
def StructDict := List (String × PyVal)

instance : DecidableEq StructDict := by
  unfold StructDict
  infer_instance

/-- Python `d[k]` / `k in d` on a `StructDict` (first binding wins, as keys
are never repeated). -/
def dictGet (d : StructDict) (k : String) : Option PyVal :=
  (d.find? (fun p => p.1 == k)).map (fun p => p.2)

/-- Python `d.get(k, False)` specialised to the boolean fields used by the
plugin (`structure.get("success", False)`). -/
def pyGetBool (d : StructDict) (k : String) : Bool :=
  match dictGet d k with
  | some (.pybool b) => b
  | _ => false

/-- Python `d.get(k, dflt)` for string fields
(`structure.get("error_message", "Unknown error")`). -/
def pyGetStr (d : StructDict) (k : String) (dflt : String) : String :=
  match dictGet d k with
  | some (.pystr s) => s
  | _ => dflt

/-- Python `d.get("nodes", [])`. -/
def pyGetNodes (d : StructDict) : List NodeDict :=
  match dictGet d "nodes" with
  | some (.pynodes ns) => ns
  | _ => []

/-- Python `d.get("links", [])`. -/
def pyGetLinks (d : StructDict) : List LinkDict :=
  match dictGet d "links" with
  | some (.pylinks ls) => ls
  | _ => []

/-- Content pushed to the panel: either the static placeholder page, or the
flowchart template instantiated with exactly the parameters
`FLOWCHART_HTML_TEMPLATE.format(...)` receives. -/
inductive Content where
  | placeholder
  | flowchart (dialog_name : String) (node_count : Nat)
      (nodes : List NodeDict) (links : List LinkDict)
      (speaker_colors : List (String × String))
      (theme : String) (selected_node_id : Option String)
  deriving DecidableEq, Repr

/-- Observable events of one plugin method invocation: one event per RPC
request issued by the client layer, plus one `log` per `print`. -/
inductive Event where
  | push (panel_id content_type : String) (content : Content)
  | rpcSelectNode (node_id : String)
  | rpcGetCurrentDialog
  | rpcGetDialogStructure
  | rpcGetSelectedNode
  | rpcGetTheme
  | rpcGetSpeakerColors
  | rpcGetPanelSetting (panel_id setting_name : String)
  | rpcClosePanel (panel_id : String)
  | rpcShowNotification (title message : String)
  | rpcIsPanelOpen (panel_id : String)
  | log (message : String)
  deriving DecidableEq, Repr

/-- Raw outcomes the host would deliver for each RPC during one poll tick.
`panelOpen` is the answer `IsPanelOpen` would give; the flowchart plugin
never asks, which is exactly what claim C6 is about. -/
structure HostTick where
  currentDialog : Except String (String × String)
  structureFetch : Except String StructureResponse
  theme : Except String ThemeResponse
  speakerColors : Except String SpeakerColorsResponse
  selectedNode : Except String (String × String)
  selectNodeCall : Except String (Bool × String)
  updatePanel : Except String (Bool × String)
  closePanelCall : Except String Bool
  notifyCall : Except String Bool
  panelOpen : Except String Bool

/-- ParleyClient.get_current_dialog: on RpcError prints and returns ("",""). -/
def client_get_current_dialog :
    Except String (String × String) → (String × String) × List Event
  | .error e => (("", ""), [.rpcGetCurrentDialog, .log ("gRPC error: " ++ e)])
  | .ok p => (p, [.rpcGetCurrentDialog])

/-- ParleyClient.get_selected_node: on RpcError prints and returns ("",""). -/
def client_get_selected_node :
    Except String (String × String) → (String × String) × List Event
  | .error e => (("", ""), [.rpcGetSelectedNode, .log ("gRPC error: " ++ e)])
  | .ok p => (p, [.rpcGetSelectedNode])

/-- ParleyClient.select_node: on RpcError prints and returns (False, str(e)). -/
def client_select_node (o : Except String (Bool × String)) (node_id : String) :
    (Bool × String) × List Event :=
  match o with
  | .error e => ((false, e), [.rpcSelectNode node_id, .log ("gRPC error: " ++ e)])
  | .ok r => (r, [.rpcSelectNode node_id])

/-- ParleyClient.get_theme: on RpcError prints and falls back to an unknown
dark theme. Result tuple is (theme_id, theme_name, is_dark). -/
def client_get_theme :
    Except String ThemeResponse → (String × String × Bool) × List Event
  | .error e =>
      (("unknown", "unknown", true),
       [.rpcGetTheme, .log ("gRPC error getting theme: " ++ e)])
  | .ok r => ((r.theme_id, r.theme_name, r.is_dark), [.rpcGetTheme])

/-- The dict built by ParleyClient.get_speaker_colors. -/
structure SpeakerColorsDict where
  pc_color : String
  owner_color : String
  speaker_colors : List (String × String)
  pc_shape : String
  owner_shape : String
  speaker_shapes : List (String × String)
  deriving DecidableEq, Repr

/-- ParleyClient.get_speaker_colors: on RpcError prints and falls back to the
default palette; otherwise copies the response with Python-truthiness
defaults on the shape fields. -/
def client_get_speaker_colors :
    Except String SpeakerColorsResponse → SpeakerColorsDict × List Event
  | .error e =>
      ({ pc_color := "#4FC3F7", owner_color := "#FF8A65", speaker_colors := [],
         pc_shape := "Circle", owner_shape := "Square", speaker_shapes := [] },
       [.rpcGetSpeakerColors, .log ("gRPC error getting speaker colors: " ++ e)])
  | .ok r =>
      ({ pc_color := r.pc_color, owner_color := r.owner_color,
         speaker_colors := r.speaker_colors,
         pc_shape := if r.pc_shape = "" then "Circle" else r.pc_shape,
         owner_shape := if r.owner_shape = "" then "Square" else r.owner_shape,
         speaker_shapes := if r.speaker_shapes = [] then [] else r.speaker_shapes },
       [.rpcGetSpeakerColors])

/-- node dict built by the comprehension in get_dialog_structure. -/
def nodeToDict (n : NodeMsg) : NodeDict :=
  { id := n.id, type := n.type, text := n.text, speaker := n.speaker,
    is_link := n.is_link, link_target := n.link_target,
    has_condition := n.has_condition, has_action := n.has_action,
    condition_script := n.condition_script, action_script := n.action_script }

/-- link dict built by the comprehension in get_dialog_structure. -/
def linkToDict (l : LinkMsg) : LinkDict :=
  { source := l.source, target := l.target,
    has_condition := l.has_condition, condition_script := l.condition_script }

/-- ParleyClient.get_dialog_structure: always returns a dict; the three
branches (RpcError, unsuccessful response, successful response) build the
key/value lists exactly as `client.py` lines 248-301 do.  Totality of this
function is the embedding of "never raises on an RpcError". -/
def client_get_dialog_structure
    (o : Except String StructureResponse) : StructDict × List Event :=
  match o with
  | .error e =>
      ([("success", .pybool false), ("error_message", .pystr e),
        ("nodes", .pynodes []), ("links", .pylinks [])],
       [.rpcGetDialogStructure, .log ("gRPC error: " ++ e)])
  | .ok r =>
      if r.success = false then
        ([("success", .pybool false), ("error_message", .pystr r.error_message),
          ("nodes", .pynodes []), ("links", .pylinks [])],
         [.rpcGetDialogStructure])
      else
        ([("success", .pybool true), ("dialog_id", .pystr r.dialog_id),
          ("dialog_name", .pystr r.dialog_name),
          ("nodes", .pynodes (r.nodes.map nodeToDict)),
          ("links", .pylinks (r.links.map linkToDict))],
         [.rpcGetDialogStructure])

/-- ParleyClient.update_panel_content: on RpcError prints and returns
(False, str(e)).  The push event records the request being issued. -/
def client_update_panel_content (o : Except String (Bool × String))
    (panel_id content_type : String) (content : Content) :
    (Bool × String) × List Event :=
  match o with
  | .error e =>
      ((false, e), [.push panel_id content_type content, .log ("gRPC error: " ++ e)])
  | .ok r => (r, [.push panel_id content_type content])

/-- ParleyClient.close_panel: on RpcError prints and returns False. -/
def client_close_panel (o : Except String Bool) (panel_id : String) :
    Bool × List Event :=
  match o with
  | .error e => (false, [.rpcClosePanel panel_id, .log ("gRPC error: " ++ e)])
  | .ok b => (b, [.rpcClosePanel panel_id])

/-- ParleyClient.show_notification: on RpcError prints and returns False. -/
def client_show_notification (o : Except String Bool)
    (title message : String) : Bool × List Event :=
  match o with
  | .error e =>
      (false, [.rpcShowNotification title message, .log ("gRPC error: " ++ e)])
  | .ok b => (b, [.rpcShowNotification title message])

/-- ParleyClient.get_panel_setting: silent on RpcError, returns (False, "").
The flowchart plugin never calls this (claim C9). -/
def client_get_panel_setting (o : Except String (Bool × String))
    (panel_id setting_name : String) : (Bool × String) × List Event :=
  match o with
  | .error _ => ((false, ""), [.rpcGetPanelSetting panel_id setting_name])
  | .ok r => (r, [.rpcGetPanelSetting panel_id setting_name])

/-- ParleyClient.is_panel_open: silent on RpcError, returns False.
The flowchart plugin never calls this either (claim C6). -/
def client_is_panel_open (o : Except String Bool) (panel_id : String) :
    Bool × List Event :=
  match o with
  | .error _ => (false, [.rpcIsPanelOpen panel_id])
  | .ok b => (b, [.rpcIsPanelOpen panel_id])

/-- Python truthiness of an `Optional[str]`: `None` and `""` are falsy. -/
def optTruthy : Option String → Bool
  | none => false
  | some s => s ≠ ""

/-- Python `node_id != self._last_selected_node_id` is false iff the optional
holds exactly `node_id` (a `str` never equals `None`). -/
def optEqStr (s : String) : Option String → Bool
  | none => false
  | some t => s == t

/-- Python `self.current_dialog_name or "Untitled"`. -/
def orUntitled : Option String → String
  | none => "Untitled"
  | some s => if s = "" then "Untitled" else s

/-- Python f-string rendering of an `Optional[str]`. -/
def pyShowOpt : Option String → String
  | none => "None"
  | some s => s

/-- Mutable fields of the FlowchartPlugin object.  `hasClient` is
`self.client is not None`; the leading underscores of the Python names are
dropped. -/
structure PState where
  hasClient : Bool
  running : Bool
  current_dialog_id : Option String
  current_dialog_name : Option String
  last_structure_hash : Option Nat
  last_selected_node_id : Option String
  panel_registered : Bool
  inited : Bool
  deriving DecidableEq, Repr

/-- The demo nodes of `_generate_demo_graph_data` (keys absent from a given
Python dict are embedded as the default values; no code path reads them). -/
def demoNodes : List NodeDict :=
  [{ id := "root", type := "root", text := "Dialog Start", speaker := "" },
   { id := "npc_1", type := "npc", text := "Hello, traveler!", speaker := "Guard" },
   { id := "pc_1", type := "pc", text := "Greetings.", speaker := "" },
   { id := "pc_2", type := "pc", text := "What do you want?", speaker := "" },
   { id := "pc_3", type := "pc", text := "[Leave]", speaker := "",
     has_action := true, action_script := "nw_walk_wp" },
   { id := "npc_2", type := "npc", text := "I have a quest for you.",
     speaker := "Guard", has_action := true, action_script := "sc_start_quest" },
   { id := "npc_3", type := "npc", text := "No need to be rude!", speaker := "Guard" },
   { id := "pc_4", type := "pc", text := "Tell me more.", speaker := "" },
   { id := "pc_5", type := "pc", text := "Not interested.", speaker := "" },
   { id := "npc_4", type := "npc", text := "There is a cave nearby...",
     speaker := "Merchant" },
   { id := "link_1", type := "link", text := "-> Quest Accepted", speaker := "",
     is_link := true, link_target := "npc_2",
     has_condition := true, condition_script := "gc_has_item" }]

/-- The demo links of `_generate_demo_graph_data`. -/
def demoLinks : List LinkDict :=
  [{ source := "root", target := "npc_1" },
   { source := "npc_1", target := "pc_1" },
   { source := "npc_1", target := "pc_2" },
   { source := "npc_1", target := "pc_3" },
   { source := "pc_1", target := "npc_2" },
   { source := "pc_2", target := "npc_3" },
   { source := "npc_2", target := "pc_4",
     has_condition := true, condition_script := "gc_check_skill" },
   { source := "npc_2", target := "pc_5" },
   { source := "pc_4", target := "npc_4" },
   { source := "npc_4", target := "link_1" }]

/-- Hash-based fallback color of `_generate_speaker_colors`
(`sum(ord(c) for c in speaker) % 360` as hsl hue). -/
def hslFallbackColor (speaker : String) : String :=
  "hsl(" ++ toString ((speaker.toList.map Char.toNat).sum % 360) ++ ", 50%, 35%)"

/-- The predefined palette of `_generate_speaker_colors`. -/
def speakerPalette : List String :=
  ["#BA68C8", "#26A69A", "#FFD54F", "#F48FB1", "#8e4585", "#5a4d2d"]

/-- FlowchartPlugin._generate_speaker_colors.  With a client present the
colors come from the GetSpeakerColors API (whose wrapper already catches
RpcError, so the plugin-level `except` branch is unreachable); without a
client, colors are generated locally from the node list. -/
def generate_speaker_colors (hasClient : Bool)
    (scOutcome : Except String SpeakerColorsResponse)
    (nodes : List NodeDict) : List (String × String) × List Event :=
  if hasClient then
    let r := client_get_speaker_colors scOutcome
    let pc := r.1
    ([("_pc", pc.pc_color), ("_owner", pc.owner_color)] ++ pc.speaker_colors,
     r.2 ++ [.log ("[Flowchart] Got speaker colors from Parley: PC=" ++
       pc.pc_color ++ ", Owner=" ++ pc.owner_color ++ ", " ++
       toString pc.speaker_colors.length ++ " named speakers")])
  else
    let speakers : List String :=
      (((nodes.filter (fun n => n.speaker ≠ "" && n.type == "npc")).map
          (fun n => n.speaker)).dedup).mergeSort (fun a b => a ≤ b)
    let named := speakers.enum.map (fun p =>
      (p.2, if p.1 < speakerPalette.length then speakerPalette.getD p.1 ""
            else hslFallbackColor p.2))
    ([("_pc", "#4FC3F7"), ("_owner", "#FF8A65")] ++ named, [])

/-- FlowchartPlugin._update_panel_placeholder. -/
def update_panel_placeholder (st : PState)
    (upOutcome : Except String (Bool × String)) : List Event :=
  if st.hasClient = false ∨ st.panel_registered = false then []
  else
    let r := client_update_panel_content upOutcome "flowchart-view" "html"
      Content.placeholder
    r.2 ++ (if r.1.1 then []
            else [.log ("[Flowchart] Failed to update panel content: " ++ r.1.2)])

/-- FlowchartPlugin._render_flowchart_with_data (lines 829-886).  Beyond its
event trace it can mutate `_last_selected_node_id` when the tracked selection
is falsy and the host reports a current selection. -/
def render_flowchart_with_data (st : PState) (host : HostTick)
    (structure_ : StructDict) : PState × List Event :=
  if st.hasClient = false ∨ st.panel_registered = false then (st, [])
  else
    let dataEvs : (List NodeDict × List LinkDict) × List Event :=
      if pyGetBool structure_ "success" = false then
        ((demoNodes, demoLinks),
         [.log ("[Flowchart] Failed to get structure: " ++
            pyGetStr structure_ "error_message" "Unknown error")])
      else
        ((pyGetNodes structure_, pyGetLinks structure_),
         [.log ("[Flowchart] Got " ++ toString (pyGetNodes structure_).length ++
            " nodes from Parley API")])
    let nodes := dataEvs.1.1
    let links := dataEvs.1.2
    let sc := generate_speaker_colors st.hasClient host.speakerColors nodes
    let th := client_get_theme host.theme
    let theme := if th.1.2.2 then "dark" else "light"
    let selStep : (Option String × PState) × List Event :=
      if optTruthy st.last_selected_node_id = false ∧ st.hasClient = true then
        let g := client_get_selected_node host.selectedNode
        if g.1.1 ≠ "" then
          ((some g.1.1, { st with last_selected_node_id := some g.1.1 }), g.2)
        else ((st.last_selected_node_id, st), g.2)
      else ((st.last_selected_node_id, st), [])
    let content := Content.flowchart (orUntitled st.current_dialog_name)
      nodes.length nodes links sc.1 theme selStep.1.1
    let up := client_update_panel_content host.updatePanel "flowchart-view"
      "html" content
    let finalLog :=
      if up.1.1 then
        [Event.log ("[Flowchart] Rendered " ++ toString nodes.length ++ " nodes")]
      else [Event.log ("[Flowchart] Failed to render: " ++ up.1.2)]
    (selStep.1.2, dataEvs.2 ++ sc.2 ++ th.2 ++ selStep.2 ++ up.2 ++ finalLog)

/-- FlowchartPlugin._render_flowchart: fetch the structure, then render. -/
def render_flowchart (st : PState) (host : HostTick) : PState × List Event :=
  if st.hasClient = false ∨ st.panel_registered = false then (st, [])
  else
    let s := client_get_dialog_structure host.structureFetch
    let r := render_flowchart_with_data st host s.1
    (r.1, s.2 ++ r.2)

/-- FlowchartPlugin._on_dialog_changed. -/
def on_dialog_changed (st : PState) (host : HostTick) : PState × List Event :=
  if optTruthy st.current_dialog_id = false then
    (st, [.log "[Flowchart] Dialog closed, showing placeholder"] ++
      update_panel_placeholder st host.updatePanel)
  else
    let r := render_flowchart st host
    (r.1, [.log ("[Flowchart] Rendering flowchart for: " ++
      pyShowOpt st.current_dialog_name)] ++ r.2)

/-- FlowchartPlugin._refresh_dialog_state (lines 764-795), parameterised by
the fingerprint function `fp` standing for md5 of the sorted-keys JSON dump
of the structure dict. -/
def refresh_dialog_state (fp : StructDict → Nat) (st : PState)
    (host : HostTick) : PState × List Event :=
  if st.hasClient = false then (st, [])
  else
    let c := client_get_current_dialog host.currentDialog
    let dialog_id := c.1.1
    let dialog_name := c.1.2
    if some dialog_id ≠ st.current_dialog_id then
      let st1 := { st with current_dialog_id := some dialog_id,
                           current_dialog_name := some dialog_name,
                           last_structure_hash := none }
      if dialog_id ≠ "" then
        let r := on_dialog_changed st1 host
        (r.1, c.2 ++ [.log ("[Flowchart] Dialog loaded: " ++ dialog_name)] ++ r.2)
      else
        (st1, c.2 ++ [.log "[Flowchart] No dialog loaded"] ++
          update_panel_placeholder st1 host.updatePanel)
    else if dialog_id ≠ "" then
      let s := client_get_dialog_structure host.structureFetch
      if pyGetBool s.1 "success" = true then
        let current_hash := fp s.1
        if some current_hash ≠ st.last_structure_hash then
          let st1 := { st with last_structure_hash := some current_hash }
          let r := render_flowchart_with_data st1 host s.1
          (r.1, c.2 ++ s.2 ++
            [.log "[Flowchart] Dialog content changed, re-rendering"] ++ r.2)
        else (st, c.2 ++ s.2)
      else (st, c.2 ++ s.2)
    else (st, c.2)

/-- One iteration of the FlowchartPlugin.run while-loop body (lines 1033-1050):
refresh the dialog state, then the selection-tracking check. -/
def tick (fp : StructDict → Nat) (st : PState) (host : HostTick) :
    PState × List Event :=
  let a := refresh_dialog_state fp st host
  let st1 := a.1
  if st1.hasClient then
    let g := client_get_selected_node host.selectedNode
    let node_id := g.1.1
    if node_id ≠ "" ∧ optEqStr node_id st1.last_selected_node_id = false then
      ({ st1 with last_selected_node_id := some node_id },
       a.2 ++ g.2 ++ [.log ("[Flowchart] Selection changed to: " ++ node_id ++
         " (tracking only, no re-render)")])
    else (st1, a.2 ++ g.2)
  else (st1, a.2)

/-- FlowchartPlugin._on_flowchart_node_clicked (lines 999-1018). -/
def on_flowchart_node_clicked (st : PState)
    (snOutcome : Except String (Bool × String)) (node_id : String) :
    PState × List Event :=
  if st.hasClient = false then (st, [])
  else
    let r := client_select_node snOutcome node_id
    if r.1.1 then
      ({ st with last_selected_node_id := some node_id },
       [.log ("[Flowchart] User clicked node: " ++ node_id)] ++ r.2 ++
         [.log ("[Flowchart] Successfully requested selection of " ++ node_id)])
    else
      (st, [.log ("[Flowchart] User clicked node: " ++ node_id)] ++ r.2 ++
        [.log ("[Flowchart] Failed to select node: " ++ r.1.2)])

/-- FlowchartPlugin.shutdown (lines 1059-1082).  The try/except swallows any
failure of the two calls; in the embedding the client wrappers already absorb
RpcError, so both calls are always issued when a client is present. -/
def shutdown (st : PState) (host : HostTick) : PState × List Event :=
  let st0 := { st with running := false }
  if st0.hasClient then
    let a : PState × List Event :=
      if st0.panel_registered then
        let c := client_close_panel host.closePanelCall "flowchart-view"
        ({ st0 with panel_registered := false }, c.2)
      else (st0, [])
    let n := client_show_notification host.notifyCall "Flowchart View"
      "Plugin stopped."
    ({ a.1 with hasClient := false, inited := false },
     [Event.log "[Flowchart] Shutting down..."] ++ a.2 ++ n.2 ++
       [Event.log "[Flowchart] Shutdown complete"])
  else
    ({ st0 with inited := false },
     [Event.log "[Flowchart] Shutting down...",
      Event.log "[Flowchart] Shutdown complete"])

/-- Event-class predicate: a panel content push (UpdatePanelContent request). -/
def isPushEv : Event → Bool
  | .push _ _ _ => true
  | _ => false

/-- Event-class predicate: a SelectNode relay request. -/
def isRelayEv : Event → Bool
  | .rpcSelectNode _ => true
  | _ => false

/-- Event-class predicate: a log line. -/
def isLogEv : Event → Bool
  | .log _ => true
  | _ => false

/-- Event-class predicate: a GetPanelSetting request. -/
def isPanelSettingEv : Event → Bool
  | .rpcGetPanelSetting _ _ => true
  | _ => false

/-- Event-class predicate: a GetTheme request or a push, used to state that
the theme is fetched before the single push of a render cycle. -/
def isThemeOrPushEv : Event → Bool
  | .rpcGetTheme => true
  | .push _ _ _ => true
  | _ => false

/-- Number of events of a class in a trace. -/
def countP (f : Event → Bool) (evs : List Event) : Nat := (evs.filter f).length

/-- Number of render pushes in a trace. -/
def pushCount (evs : List Event) : Nat := countP isPushEv evs

/-- Number of selection relays in a trace. -/
def relayCount (evs : List Event) : Nat := countP isRelayEv evs

/-- Number of log lines in a trace. -/
def logCount (evs : List Event) : Nat := countP isLogEv evs

theorem countP_append (f : Event → Bool) (a b : List Event) :
    countP f (a ++ b) = countP f a + countP f b := by
  simp [countP, List.filter_append]

theorem pushCount_append (a b : List Event) :
    pushCount (a ++ b) = pushCount a + pushCount b := countP_append _ a b

theorem relayCount_append (a b : List Event) :
    relayCount (a ++ b) = relayCount a + relayCount b := countP_append _ a b

theorem logCount_append (a b : List Event) :
    logCount (a ++ b) = logCount a + logCount b := countP_append _ a b

theorem pushCount_get_current_dialog (o : Except String (String × String)) :
    pushCount (client_get_current_dialog o).2 = 0 := by
  cases o <;> rfl

theorem pushCount_get_selected_node (o : Except String (String × String)) :
    pushCount (client_get_selected_node o).2 = 0 := by
  cases o <;> rfl

theorem filter_push_get_selected_node (o : Except String (String × String)) :
    (client_get_selected_node o).2.filter isPushEv = [] := by
  cases o <;> rfl

theorem pushCount_get_dialog_structure (o : Except String StructureResponse) :
    pushCount (client_get_dialog_structure o).2 = 0 := by
  rcases o with e | r
  · rfl
  · by_cases h : r.success = false <;>
      simp [client_get_dialog_structure, h, pushCount, countP, isPushEv]

theorem pushCount_get_theme (o : Except String ThemeResponse) :
    pushCount (client_get_theme o).2 = 0 := by
  cases o <;> rfl

theorem pushCount_get_speaker_colors (o : Except String SpeakerColorsResponse) :
    pushCount (client_get_speaker_colors o).2 = 0 := by
  cases o <;> rfl

theorem pushCount_update_panel_content (o : Except String (Bool × String))
    (p c : String) (ct : Content) :
    pushCount (client_update_panel_content o p c ct).2 = 1 := by
  cases o <;> rfl

theorem pushCount_generate_speaker_colors (hc : Bool)
    (o : Except String SpeakerColorsResponse) (ns : List NodeDict) :
    pushCount (generate_speaker_colors hc o ns).2 = 0 := by
  cases hc
  · rfl
  · cases o <;> rfl

/-- A render cycle with a registered panel and a live client issues exactly
one push, whatever the structure dict, the theme, the colors and the
update-call outcome are. -/
theorem render_pushCount (st : PState) (host : HostTick) (d : StructDict)
    (hc : st.hasClient = true) (hr : st.panel_registered = true) :
    pushCount (render_flowchart_with_data st host d).2 = 1 := by
  rw [render_flowchart_with_data]
  rw [if_neg (by simp [hc, hr])]
  simp only [pushCount_append, pushCount_get_theme,
    pushCount_generate_speaker_colors, pushCount_update_panel_content]
  repeat' split
  all_goals simp [pushCount, countP, isPushEv, filter_push_get_selected_node,
    pushCount_append, List.filter]

/-- A render cycle leaves the plugin state unchanged whenever the tracked
selection is truthy (the only mutation in the method is the selected-node
backfill). -/
theorem render_state (st : PState) (host : HostTick) (d : StructDict)
    (hsel : optTruthy st.last_selected_node_id = true) :
    (render_flowchart_with_data st host d).1 = st := by
  rw [render_flowchart_with_data]
  split
  · rfl
  · simp only [hsel]
    split
    · rename_i h
      simp at h
    · rfl

/-- Convenience constructor for a HostTick from its ten raw RPC outcomes. -/
def mkHost (cd : Except String (String × String))
    (sf : Except String StructureResponse)
    (th : Except String ThemeResponse)
    (sc : Except String SpeakerColorsResponse)
    (sel : Except String (String × String))
    (sn : Except String (Bool × String))
    (up : Except String (Bool × String))
    (cp : Except String Bool) (nt : Except String Bool)
    (po : Except String Bool) : HostTick :=
  { currentDialog := cd, structureFetch := sf, theme := th, speakerColors := sc,
    selectedNode := sel, selectNodeCall := sn, updatePanel := up,
    closePanelCall := cp, notifyCall := nt, panelOpen := po }

/-- The state right after the document-switch transition of
`_refresh_dialog_state`: new id and name cached, fingerprint reset. -/
def switchState (st : PState) (d nm : String) : PState :=
  { st with current_dialog_id := some d, current_dialog_name := some nm, last_structure_hash := none }

/-- The state right after the steady-state content-change transition of
`_refresh_dialog_state`: new fingerprint recorded. -/
def cacheHash (st : PState) (h : Nat) : PState :=
  { st with last_structure_hash := some h }

/-- Branch equation: a poll refresh that sees a changed, non-empty dialog id
runs the dialog-changed path (fetch structure and render) and does NOT record
any fingerprint beyond the reset done in the transition. -/
theorem refresh_switch (fp : StructDict → Nat) (st : PState) (host : HostTick)
    (d nm : String) (hc : st.hasClient = true)
    (hcd : host.currentDialog = .ok (d, nm))
    (hneq : st.current_dialog_id ≠ some d) (hd : d ≠ "") :
    refresh_dialog_state fp st host =
      ((render_flowchart (switchState st d nm) host).1,
       [Event.rpcGetCurrentDialog,
        Event.log ("[Flowchart] Dialog loaded: " ++ nm),
        Event.log ("[Flowchart] Rendering flowchart for: " ++ nm)] ++
        (render_flowchart (switchState st d nm) host).2) := by
  rw [refresh_dialog_state]
  rw [if_neg (by simp [hc]), hcd]
  simp only [client_get_current_dialog]
  rw [if_pos (fun h => hneq h.symm), if_pos hd]
  rw [on_dialog_changed]
  rw [if_neg (by simp [optTruthy, hd])]
  simp [pyShowOpt, switchState]

/-- Branch equation: a steady-state refresh whose successful structure fetch
hashes to the cached fingerprint is a no-op. -/
theorem refresh_steady_nochange (fp : StructDict → Nat) (st : PState)
    (host : HostTick) (d nm : String) (hc : st.hasClient = true)
    (hcd : host.currentDialog = .ok (d, nm))
    (hid : st.current_dialog_id = some d) (hd : d ≠ "")
    (hsucc : pyGetBool (client_get_dialog_structure host.structureFetch).1
      "success" = true)
    (hhash : st.last_structure_hash =
      some (fp (client_get_dialog_structure host.structureFetch).1)) :
    refresh_dialog_state fp st host =
      (st, [Event.rpcGetCurrentDialog] ++
        (client_get_dialog_structure host.structureFetch).2) := by
  rw [refresh_dialog_state]
  rw [if_neg (by simp [hc]), hcd]
  simp only [client_get_current_dialog]
  rw [if_neg (by simp [hid]), if_pos hd]
  rw [if_pos hsucc]
  rw [if_neg (by simp [hhash])]

/-- Branch equation: a steady-state refresh whose structure fetch reports
failure (unsuccessful response or caught RpcError) changes nothing and pushes
nothing. -/
theorem refresh_steady_fail (fp : StructDict → Nat) (st : PState)
    (host : HostTick) (d nm : String) (hc : st.hasClient = true)
    (hcd : host.currentDialog = .ok (d, nm))
    (hid : st.current_dialog_id = some d) (hd : d ≠ "")
    (hsucc : pyGetBool (client_get_dialog_structure host.structureFetch).1
      "success" = false) :
    refresh_dialog_state fp st host =
      (st, [Event.rpcGetCurrentDialog] ++
        (client_get_dialog_structure host.structureFetch).2) := by
  rw [refresh_dialog_state]
  rw [if_neg (by simp [hc]), hcd]
  simp only [client_get_current_dialog]
  rw [if_neg (by simp [hid]), if_pos hd]
  rw [if_neg (by simp [hsucc])]

/-- Branch equation: a steady-state refresh whose successful structure fetch
hashes differently from the cache records the new fingerprint and re-renders. -/
theorem refresh_steady_change (fp : StructDict → Nat) (st : PState)
    (host : HostTick) (d nm : String) (hc : st.hasClient = true)
    (hcd : host.currentDialog = .ok (d, nm))
    (hid : st.current_dialog_id = some d) (hd : d ≠ "")
    (hsucc : pyGetBool (client_get_dialog_structure host.structureFetch).1
      "success" = true)
    (hhash : st.last_structure_hash ≠
      some (fp (client_get_dialog_structure host.structureFetch).1)) :
    refresh_dialog_state fp st host =
      ((render_flowchart_with_data
          (cacheHash st (fp (client_get_dialog_structure host.structureFetch).1))
          host (client_get_dialog_structure host.structureFetch).1).1,
       [Event.rpcGetCurrentDialog] ++
         (client_get_dialog_structure host.structureFetch).2 ++
         [Event.log "[Flowchart] Dialog content changed, re-rendering"] ++
         (render_flowchart_with_data
           (cacheHash st (fp (client_get_dialog_structure host.structureFetch).1))
           host (client_get_dialog_structure host.structureFetch).1).2) := by
  rw [refresh_dialog_state]
  rw [if_neg (by simp [hc]), hcd]
  simp only [client_get_current_dialog]
  rw [if_neg (by simp [hid]), if_pos hd]
  rw [if_pos hsucc]
  rw [if_pos (fun h => hhash h.symm)]
  simp [cacheHash]

theorem relayCount_get_dialog_structure (o : Except String StructureResponse) :
    relayCount (client_get_dialog_structure o).2 = 0 := by
  rcases o with e | r
  · rfl
  · by_cases h : r.success = false <;>
      simp [client_get_dialog_structure, h, relayCount, countP, isRelayEv]

theorem no_push_get_dialog_structure (o : Except String StructureResponse) :
    ∀ a ∈ (client_get_dialog_structure o).2, isPushEv a = false := by
  rcases o with e | r
  · intro a ha
    simp [client_get_dialog_structure] at ha
    rcases ha with h | h <;> subst h <;> rfl
  · intro a ha
    by_cases hs : r.success = false <;>
      simp [client_get_dialog_structure, hs] at ha <;> subst ha <;> rfl

theorem no_push_get_selected_node (o : Except String (String × String)) :
    ∀ a ∈ (client_get_selected_node o).2, isPushEv a = false := by
  rcases o with e | p
  · intro a ha
    simp [client_get_selected_node] at ha
    rcases ha with h | h <;> subst h <;> rfl
  · intro a ha
    simp [client_get_selected_node] at ha
    subst ha
    rfl

theorem no_relay_get_dialog_structure (o : Except String StructureResponse) :
    ∀ a ∈ (client_get_dialog_structure o).2, isRelayEv a = false := by
  rcases o with e | r
  · intro a ha
    simp [client_get_dialog_structure] at ha
    rcases ha with h | h <;> subst h <;> rfl
  · intro a ha
    by_cases hs : r.success = false <;>
      simp [client_get_dialog_structure, hs] at ha <;> subst ha <;> rfl

/-- Constant fingerprint function used by concrete witnesses. -/
def fp0 : StructDict → Nat := fun _ => 0

/-- A successful structure response used by concrete witnesses. -/
def respOK : StructureResponse :=
  { success := true, error_message := "", dialog_id := "doc1",
    dialog_name := "Doc One", nodes := [], links := [] }

/-- A normal theme outcome used by concrete witnesses. -/
def thOK : Except String ThemeResponse :=
  .ok { theme_id := "dark", theme_name := "Dark", is_dark := true }

/-- A normal speaker-colors outcome used by concrete witnesses. -/
def scOK : Except String SpeakerColorsResponse :=
  .ok { pc_color := "#4FC3F7", owner_color := "#FF8A65", speaker_colors := [],
        pc_shape := "Circle", owner_shape := "Square", speaker_shapes := [] }

/-- A successful boolean-pair RPC outcome used by concrete witnesses. -/
def upOK : Except String (Bool × String) := .ok (true, "")

/-- A successful boolean RPC outcome used by concrete witnesses. -/
def okBool : Except String Bool := .ok true

/-- A loaded steady state used by concrete witnesses: document doc1 cached,
fingerprint recorded (matching `fp0`), a node n1 tracked as selected. -/
def stLoaded : PState :=
  { hasClient := true, running := true, current_dialog_id := some "doc1",
    current_dialog_name := some "Doc One", last_structure_hash := some 0,
    last_selected_node_id := some "n1", panel_registered := true, inited := true }

/-- C10: for every outcome of the structure-fetch RPC (success, unsuccessful
response, or raised RPC error) `ParleyClient.get_dialog_structure` returns a
dict that contains the keys success, nodes and links, and whenever success is
False the nodes and links lists are empty and an error_message string is
present.  Never-raising on an RpcError is embedded by the totality of
`client_get_dialog_structure` over the `.error` outcomes. -/
theorem C10_get_dialog_structure_shape (o : Except String StructureResponse) :
    (dictGet (client_get_dialog_structure o).1 "success").isSome = true ∧
    (dictGet (client_get_dialog_structure o).1 "nodes").isSome = true ∧
    (dictGet (client_get_dialog_structure o).1 "links").isSome = true ∧
    (dictGet (client_get_dialog_structure o).1 "success" = some (.pybool false) →
      dictGet (client_get_dialog_structure o).1 "nodes" = some (.pynodes []) ∧
      dictGet (client_get_dialog_structure o).1 "links" = some (.pylinks []) ∧
      ∃ m, dictGet (client_get_dialog_structure o).1 "error_message" =
        some (.pystr m)) := by
  rcases o with e | r
  · exact ⟨rfl, rfl, rfl, fun _ => ⟨rfl, rfl, ⟨e, rfl⟩⟩⟩
  · by_cases hs : r.success = false
    · simp only [client_get_dialog_structure, hs, if_true]
      exact ⟨rfl, rfl, rfl, fun _ => ⟨rfl, rfl, ⟨r.error_message, rfl⟩⟩⟩
    · have htrue : r.success = true := by
        cases hb : r.success
        · exact absurd hb hs
        · rfl
      simp only [client_get_dialog_structure, htrue]
      rw [if_neg (by decide)]
      refine ⟨rfl, rfl, rfl, fun h => ?_⟩
      have h2 : some (PyVal.pybool true) = some (PyVal.pybool false) := h
      simp at h2

/-- Witness for C10 at the concrete outcome of a raised RPC error. -/
theorem C10_witness :
    dictGet (client_get_dialog_structure (.error "boom")).1 "nodes" =
      some (.pynodes []) ∧
    ∃ m, dictGet (client_get_dialog_structure (.error "boom")).1
      "error_message" = some (.pystr m) := by
  have h := C10_get_dialog_structure_shape (.error "boom")
  have h2 := h.2.2.2 (by decide)
  exact ⟨h2.1, h2.2.2⟩

/-- C3: a poll tick in the steady state whose structure fetch succeeds with
the cached fingerprint, and in which the host-reported selected id differs
from the last-acknowledged one with no panel-initiated event in between,
issues no render push and no relay: host-to-panel selection sync is
tracking-only. -/
theorem C3_host_selection_tracking_only
    (fp : StructDict → Nat) (st : PState) (d nm s t : String)
    (th : Except String ThemeResponse) (sc : Except String SpeakerColorsResponse)
    (sn up : Except String (Bool × String)) (cp nt po : Except String Bool)
    (sf : Except String StructureResponse)
    (hc : st.hasClient = true)
    (hid : st.current_dialog_id = some d) (hd : d ≠ "")
    (hsucc : pyGetBool (client_get_dialog_structure sf).1 "success" = true)
    (hhash : st.last_structure_hash = some (fp (client_get_dialog_structure sf).1))
    (hdiff : optEqStr s st.last_selected_node_id = false) :
    pushCount (tick fp st (mkHost (.ok (d, nm)) sf th sc (.ok (s, t))
      sn up cp nt po)).2 = 0 ∧
    relayCount (tick fp st (mkHost (.ok (d, nm)) sf th sc (.ok (s, t))
      sn up cp nt po)).2 = 0 := by
  have hre := refresh_steady_nochange fp st
    (mkHost (.ok (d, nm)) sf th sc (.ok (s, t)) sn up cp nt po) d nm hc rfl
    hid hd hsucc hhash
  by_cases hs : s = ""
  · subst hs
    simp only [tick]
    rw [hre]
    simp [mkHost, hc, client_get_selected_node, pushCount_append,
      relayCount_append, pushCount, relayCount, countP, isPushEv, isRelayEv]
    exact ⟨no_push_get_dialog_structure sf, no_relay_get_dialog_structure sf⟩
  · simp only [tick]
    rw [hre]
    simp [mkHost, hc, hs, hdiff, client_get_selected_node, pushCount_append,
      relayCount_append, pushCount, relayCount, countP, isPushEv, isRelayEv]
    exact ⟨no_push_get_dialog_structure sf, no_relay_get_dialog_structure sf⟩

/-- Witness for C3: host reports selection n2 while n1 is tracked, structure
unchanged; the tick pushes nothing and relays nothing. -/
theorem C3_witness :
    pushCount (tick fp0 stLoaded (mkHost (.ok ("doc1", "Doc One")) (.ok respOK)
      thOK scOK (.ok ("n2", "t")) upOK upOK okBool okBool okBool)).2 = 0 ∧
    relayCount (tick fp0 stLoaded (mkHost (.ok ("doc1", "Doc One")) (.ok respOK)
      thOK scOK (.ok ("n2", "t")) upOK upOK okBool okBool okBool)).2 = 0 :=
  C3_host_selection_tracking_only fp0 stLoaded "doc1" "Doc One" "n2" "t"
    thOK scOK upOK upOK okBool okBool okBool (.ok respOK)
    rfl rfl (by decide) (by decide) (by decide) (by decide)

/-- An unsuccessful structure response used by concrete counterexamples. -/
def respFail : StructureResponse :=
  { success := false, error_message := "no dialog", dialog_id := "",
    dialog_name := "", nodes := [], links := [] }

/-- C7 counterexample: the tracked selection is n1, the host reports the
selection cleared (empty id, which differs from n1); the claim says the
last-acknowledged value is updated to the reported (empty) value, but the
run-loop guard `if node_id and ...` skips empty ids, so it stays n1. -/
theorem C7_counterexample :
    optEqStr "" stLoaded.last_selected_node_id = false ∧
    (tick fp0 stLoaded (mkHost (.ok ("doc1", "Doc One")) (.ok respOK) thOK
      scOK (.ok ("", "")) upOK upOK okBool okBool okBool)).1.last_selected_node_id
      = some "n1" ∧
    some "n1" ≠ some "" := by
  refine ⟨by decide, by decide, by decide⟩

/-- C7 (amended): on a steady unchanged-content poll tick in which the
host-reported selected id differs from the last-acknowledged one, the
last-acknowledged value is updated to the reported value only when the
reported value is non-empty; an empty report (cleared selection) leaves the
tracked value unchanged. -/
theorem C7_selection_tracking_update
    (fp : StructDict → Nat) (st : PState) (d nm s t : String)
    (th : Except String ThemeResponse) (sc : Except String SpeakerColorsResponse)
    (sn up : Except String (Bool × String)) (cp nt po : Except String Bool)
    (sf : Except String StructureResponse)
    (hc : st.hasClient = true)
    (hid : st.current_dialog_id = some d) (hd : d ≠ "")
    (hsucc : pyGetBool (client_get_dialog_structure sf).1 "success" = true)
    (hhash : st.last_structure_hash = some (fp (client_get_dialog_structure sf).1))
    (hdiff : optEqStr s st.last_selected_node_id = false) :
    (tick fp st (mkHost (.ok (d, nm)) sf th sc (.ok (s, t))
      sn up cp nt po)).1.last_selected_node_id =
      if s = "" then st.last_selected_node_id else some s := by
  have hre := refresh_steady_nochange fp st
    (mkHost (.ok (d, nm)) sf th sc (.ok (s, t)) sn up cp nt po) d nm hc rfl
    hid hd hsucc hhash
  by_cases hs : s = ""
  · subst hs
    simp only [tick]
    rw [hre]
    simp [mkHost, hc, client_get_selected_node]
  · simp only [tick]
    rw [hre]
    simp [mkHost, hc, hs, hdiff, client_get_selected_node]

/-- Witness for C7 (amended): host reports n2 while n1 is tracked; the
tracked value becomes n2. -/
theorem C7_witness :
    (tick fp0 stLoaded (mkHost (.ok ("doc1", "Doc One")) (.ok respOK) thOK
      scOK (.ok ("n2", "t")) upOK upOK okBool okBool
      okBool)).1.last_selected_node_id =
      if "n2" = "" then stLoaded.last_selected_node_id else some "n2" :=
  C7_selection_tracking_update fp0 stLoaded "doc1" "Doc One" "n2" "t"
    thOK scOK upOK upOK okBool okBool okBool (.ok respOK)
    rfl rfl (by decide) (by decide) (by decide) (by decide)

/-- C5 counterexample: in the steady loaded state the first failed structure
fetch produces no log line at all and leaves the state unchanged (there is no
failure-counter field in the plugin object); the claim predicted a
rate-limited diagnostic on failure 1 and an incremented counter. -/
theorem C5_counterexample :
    logCount (tick fp0 stLoaded (mkHost (.ok ("doc1", "Doc One")) (.ok respFail)
      thOK scOK (.ok ("", "")) upOK upOK okBool okBool okBool)).2 = 0 ∧
    (tick fp0 stLoaded (mkHost (.ok ("doc1", "Doc One")) (.ok respFail)
      thOK scOK (.ok ("", "")) upOK upOK okBool okBool okBool)).1 = stLoaded := by
  refine ⟨by decide, by decide⟩

/-- C5 (amended): the code keeps no failure counter and does no rate-limited
logging: a steady-state refresh whose structure fetch returns an unsuccessful
response is completely silent (no plugin print, no client print), leaves the
whole plugin state unchanged, and is simply retried the next cycle; only a
transport-level RpcError would be printed, by the client, on every single
occurrence. -/
theorem C5_failed_fetch_silent
    (fp : StructDict → Nat) (st : PState) (d nm : String)
    (r : StructureResponse)
    (th : Except String ThemeResponse) (sc : Except String SpeakerColorsResponse)
    (sel : Except String (String × String))
    (sn up : Except String (Bool × String)) (cp nt po : Except String Bool)
    (hc : st.hasClient = true)
    (hid : st.current_dialog_id = some d) (hd : d ≠ "")
    (hfail : r.success = false) :
    refresh_dialog_state fp st (mkHost (.ok (d, nm)) (.ok r) th sc sel
      sn up cp nt po) =
      (st, [Event.rpcGetCurrentDialog, Event.rpcGetDialogStructure]) ∧
    logCount [Event.rpcGetCurrentDialog, Event.rpcGetDialogStructure] = 0 := by
  have hre := refresh_steady_fail fp st
    (mkHost (.ok (d, nm)) (.ok r) th sc sel sn up cp nt po) d nm hc rfl hid hd
    (by simp [mkHost, client_get_dialog_structure, hfail, pyGetBool, dictGet])
  rw [hre]
  simp [mkHost, client_get_dialog_structure, hfail]
  rfl

/-- Witness for C5 (amended) at the concrete unsuccessful response. -/
theorem C5_witness :
    refresh_dialog_state fp0 stLoaded (mkHost (.ok ("doc1", "Doc One"))
      (.ok respFail) thOK scOK (.ok ("", "")) upOK upOK okBool okBool okBool) =
      (stLoaded, [Event.rpcGetCurrentDialog, Event.rpcGetDialogStructure]) :=
  (C5_failed_fetch_silent fp0 stLoaded "doc1" "Doc One" respFail thOK scOK
    (.ok ("", "")) upOK upOK okBool okBool okBool rfl rfl (by decide)
    (by decide)).1

/-- C4 counterexample: with document doc1 loaded, one poll cycle in which the
GetCurrentDialog RPC raises (connectivity loss) is reported by the client
wrapper as an empty dialog id, which the plugin treats as the document being
closed: it resets the cached id and fingerprint and pushes the placeholder,
replacing the displayed content — the claim said a transient failure leaves
cached state and displayed content unchanged. -/
theorem C4_counterexample :
    (tick fp0 stLoaded (mkHost (.error "connection refused") (.ok respOK) thOK
      scOK (.ok ("", "")) upOK upOK okBool okBool okBool)).1.current_dialog_id
      = some "" ∧
    (tick fp0 stLoaded (mkHost (.error "connection refused") (.ok respOK) thOK
      scOK (.ok ("", "")) upOK upOK okBool okBool okBool)).1.last_structure_hash
      = none ∧
    Event.push "flowchart-view" "html" Content.placeholder ∈
      (tick fp0 stLoaded (mkHost (.error "connection refused") (.ok respOK) thOK
        scOK (.ok ("", "")) upOK upOK okBool okBool okBool)).2 := by
  refine ⟨by decide, by decide, by decide⟩

/-- C4 (amended): a transient failure of the structure-fetch RPC in the
steady state leaves the cached document id, name and fingerprint and the
displayed content unchanged (no push) and is retried next cycle; it is only
a failure of the current-dialog RPC that corrupts state, as the
counterexample shows. -/
theorem C4_structure_fetch_failure_harmless
    (fp : StructDict → Nat) (st : PState) (d nm : String)
    (th : Except String ThemeResponse) (sc : Except String SpeakerColorsResponse)
    (sel : Except String (String × String))
    (sn up : Except String (Bool × String)) (cp nt po : Except String Bool)
    (sf : Except String StructureResponse)
    (hc : st.hasClient = true)
    (hid : st.current_dialog_id = some d) (hd : d ≠ "")
    (hfail : pyGetBool (client_get_dialog_structure sf).1 "success" = false) :
    (tick fp st (mkHost (.ok (d, nm)) sf th sc sel
      sn up cp nt po)).1.current_dialog_id = st.current_dialog_id ∧
    (tick fp st (mkHost (.ok (d, nm)) sf th sc sel
      sn up cp nt po)).1.current_dialog_name = st.current_dialog_name ∧
    (tick fp st (mkHost (.ok (d, nm)) sf th sc sel
      sn up cp nt po)).1.last_structure_hash = st.last_structure_hash ∧
    pushCount (tick fp st (mkHost (.ok (d, nm)) sf th sc sel
      sn up cp nt po)).2 = 0 := by
  have hre := refresh_steady_fail fp st
    (mkHost (.ok (d, nm)) sf th sc sel sn up cp nt po) d nm hc rfl hid hd hfail
  simp only [tick]
  rw [hre]
  simp only [mkHost]
  rw [if_pos (show ((st : PState), [Event.rpcGetCurrentDialog] ++
    (client_get_dialog_structure sf).2).1.hasClient = true from hc)]
  split
  · refine ⟨rfl, rfl, rfl, ?_⟩
    simp [pushCount_append, pushCount, countP, isPushEv]
    exact ⟨no_push_get_dialog_structure sf, no_push_get_selected_node sel⟩
  · refine ⟨rfl, rfl, rfl, ?_⟩
    simp [pushCount_append, pushCount, countP, isPushEv]
    exact ⟨no_push_get_dialog_structure sf, no_push_get_selected_node sel⟩

/-- Witness for C4 (amended) at a concrete RpcError structure fetch. -/
theorem C4_witness :
    (tick fp0 stLoaded (mkHost (.ok ("doc1", "Doc One")) (.error "timeout")
      thOK scOK (.ok ("", "")) upOK upOK okBool okBool
      okBool)).1.current_dialog_id = stLoaded.current_dialog_id ∧
    (tick fp0 stLoaded (mkHost (.ok ("doc1", "Doc One")) (.error "timeout")
      thOK scOK (.ok ("", "")) upOK upOK okBool okBool
      okBool)).1.current_dialog_name = stLoaded.current_dialog_name ∧
    (tick fp0 stLoaded (mkHost (.ok ("doc1", "Doc One")) (.error "timeout")
      thOK scOK (.ok ("", "")) upOK upOK okBool okBool
      okBool)).1.last_structure_hash = stLoaded.last_structure_hash ∧
    pushCount (tick fp0 stLoaded (mkHost (.ok ("doc1", "Doc One"))
      (.error "timeout") thOK scOK (.ok ("", "")) upOK upOK okBool okBool
      okBool)).2 = 0 :=
  C4_structure_fetch_failure_harmless fp0 stLoaded "doc1" "Doc One" thOK scOK
    (.ok ("", "")) upOK upOK okBool okBool okBool (.error "timeout")
    rfl rfl (by decide) (by decide)

/-- render_flowchart leaves the state unchanged when the tracked selection is
truthy. -/
theorem render_flowchart_state (st : PState) (host : HostTick)
    (hsel : optTruthy st.last_selected_node_id = true) :
    (render_flowchart st host).1 = st := by
  rw [render_flowchart]
  split
  · rfl
  · simp [render_state _ _ _ hsel]

/-- render_flowchart issues exactly one push when the guard passes. -/
theorem render_flowchart_pushCount (st : PState) (host : HostTick)
    (hc : st.hasClient = true) (hr : st.panel_registered = true) :
    pushCount (render_flowchart st host).2 = 1 := by
  rw [render_flowchart, if_neg (by simp [hc, hr])]
  simp [pushCount_append, pushCount_get_dialog_structure,
    render_pushCount _ _ _ hc hr]

/-- C8: a document-id transition from non-empty A to different non-empty B
clears the cached fingerprint and issues exactly one render push in that
tick, for EVERY fingerprint function and every structure-fetch outcome — the
push is unconditional on the switch path, so even a fingerprint collision
between B's structure and A's cached value cannot suppress it. -/
theorem C8_id_change_forces_push
    (fp : StructDict → Nat) (st : PState) (a b nm s0 : String)
    (sf : Except String StructureResponse)
    (th : Except String ThemeResponse) (sc : Except String SpeakerColorsResponse)
    (sel : Except String (String × String))
    (sn up : Except String (Bool × String)) (cp nt po : Except String Bool)
    (hc : st.hasClient = true) (hr : st.panel_registered = true)
    (ha : st.current_dialog_id = some a) (hab : a ≠ b) (hb : b ≠ "")
    (hs0 : st.last_selected_node_id = some s0) (hs0ne : s0 ≠ "") :
    pushCount (tick fp st (mkHost (.ok (b, nm)) sf th sc sel
      sn up cp nt po)).2 = 1 ∧
    (tick fp st (mkHost (.ok (b, nm)) sf th sc sel
      sn up cp nt po)).1.last_structure_hash = none := by
  have hneq : st.current_dialog_id ≠ some b := by
    rw [ha]
    exact fun h => hab (Option.some.inj h)
  have hre := refresh_switch fp st
    (mkHost (.ok (b, nm)) sf th sc sel sn up cp nt po) b nm hc rfl hneq hb
  have hsw : (render_flowchart (switchState st b nm)
      (mkHost (.ok (b, nm)) sf th sc sel sn up cp nt po)).1 =
      switchState st b nm :=
    render_flowchart_state _ _ (by simp [switchState, hs0, optTruthy, hs0ne])
  have hpu : pushCount (render_flowchart (switchState st b nm)
      (mkHost (.ok (b, nm)) sf th sc sel sn up cp nt po)).2 = 1 :=
    render_flowchart_pushCount _ _ (by simp [switchState, hc])
      (by simp [switchState, hr])
  simp only [tick]
  simp only [mkHost] at hre hsw hpu ⊢
  rw [hre, hsw]
  rw [if_pos (show (switchState st b nm).hasClient = true by
    simp [switchState, hc])]
  split
  · constructor
    · simp [pushCount_append, pushCount, countP, isPushEv,
        filter_push_get_selected_node]
      exact hpu
    · simp [switchState]
  · constructor
    · simp [pushCount_append, pushCount, countP, isPushEv,
        filter_push_get_selected_node]
      exact hpu
    · simp [switchState]

/-- Witness for C8: switch from doc1 to doc2 with a fingerprint-colliding
structure (constant fingerprint function, so B's structure trivially collides
with A's cached value): one push, fingerprint cleared. -/
theorem C8_witness :
    pushCount (tick fp0 stLoaded (mkHost (.ok ("doc2", "Doc Two")) (.ok respOK)
      thOK scOK (.ok ("", "")) upOK upOK okBool okBool okBool)).2 = 1 ∧
    (tick fp0 stLoaded (mkHost (.ok ("doc2", "Doc Two")) (.ok respOK)
      thOK scOK (.ok ("", "")) upOK upOK okBool okBool
      okBool)).1.last_structure_hash = none :=
  C8_id_change_forces_push fp0 stLoaded "doc1" "doc2" "Doc Two" "n1"
    (.ok respOK) thOK scOK (.ok ("", "")) upOK upOK okBool okBool okBool
    rfl rfl rfl (by decide) (by decide) rfl (by decide)

theorem filter_push_get_dialog_structure (o : Except String StructureResponse) :
    (client_get_dialog_structure o).2.filter isPushEv = [] := by
  rcases o with e | r
  · rfl
  · by_cases h : r.success = false <;>
      simp [client_get_dialog_structure, h, isPushEv]

theorem filter_relay_get_dialog_structure (o : Except String StructureResponse) :
    (client_get_dialog_structure o).2.filter isRelayEv = [] := by
  rcases o with e | r
  · rfl
  · by_cases h : r.success = false <;>
      simp [client_get_dialog_structure, h, isRelayEv]

/-- C2: a panel-initiated click on node X relays exactly one SelectNode call
with X and, when the relay succeeds, updates the last-acknowledged selection
to X before the next poll tick; the next poll tick — which now reads host
selection X and an unchanged structure — issues no relay, no push, and keeps
the tracked selection at X. -/
theorem C2_panel_click_single_relay
    (fp : StructDict → Nat) (st : PState) (x em t d nm : String)
    (sf : Except String StructureResponse)
    (th : Except String ThemeResponse) (sc : Except String SpeakerColorsResponse)
    (sn up : Except String (Bool × String)) (cp nt po : Except String Bool)
    (hc : st.hasClient = true)
    (hid : st.current_dialog_id = some d) (hd : d ≠ "")
    (hsucc : pyGetBool (client_get_dialog_structure sf).1 "success" = true)
    (hhash : st.last_structure_hash = some (fp (client_get_dialog_structure sf).1)) :
    (on_flowchart_node_clicked st (.ok (true, em)) x).2.filter isRelayEv =
      [Event.rpcSelectNode x] ∧
    (on_flowchart_node_clicked st (.ok (true, em)) x).1.last_selected_node_id =
      some x ∧
    relayCount (tick fp (on_flowchart_node_clicked st (.ok (true, em)) x).1
      (mkHost (.ok (d, nm)) sf th sc (.ok (x, t)) sn up cp nt po)).2 = 0 ∧
    pushCount (tick fp (on_flowchart_node_clicked st (.ok (true, em)) x).1
      (mkHost (.ok (d, nm)) sf th sc (.ok (x, t)) sn up cp nt po)).2 = 0 ∧
    (tick fp (on_flowchart_node_clicked st (.ok (true, em)) x).1
      (mkHost (.ok (d, nm)) sf th sc (.ok (x, t)) sn up cp nt
      po)).1.last_selected_node_id = some x := by
  have hclick : on_flowchart_node_clicked st (.ok (true, em)) x =
      ({ st with last_selected_node_id := some x },
       [Event.log ("[Flowchart] User clicked node: " ++ x),
        Event.rpcSelectNode x,
        Event.log ("[Flowchart] Successfully requested selection of " ++ x)]) := by
    rw [on_flowchart_node_clicked, if_neg (by simp [hc])]
    simp [client_select_node]
  rw [hclick]
  have hre := refresh_steady_nochange fp
    ({ st with last_selected_node_id := some x })
    (mkHost (.ok (d, nm)) sf th sc (.ok (x, t)) sn up cp nt po) d nm hc rfl
    hid hd hsucc hhash
  refine ⟨by simp [isRelayEv], rfl, ?_, ?_, ?_⟩ <;>
    (simp only [tick]
     simp only [mkHost] at hre ⊢
     rw [hre]
     rw [if_pos (show ({ st with last_selected_node_id := some x } : PState
       ).hasClient = true from hc)]
     rw [if_neg (by simp [client_get_selected_node, optEqStr])]
     all_goals simp [client_get_selected_node, relayCount_append,
       pushCount_append, relayCount, pushCount, countP, isRelayEv, isPushEv,
       filter_push_get_dialog_structure, filter_relay_get_dialog_structure])

/-- Witness for C2: clicking node n2 from the loaded steady state; one relay,
tracked selection updated, and the following tick is quiet. -/
theorem C2_witness :
    (on_flowchart_node_clicked stLoaded (.ok (true, "")) "n2").2.filter
      isRelayEv = [Event.rpcSelectNode "n2"] ∧
    (on_flowchart_node_clicked stLoaded (.ok (true, ""))
      "n2").1.last_selected_node_id = some "n2" ∧
    relayCount (tick fp0 (on_flowchart_node_clicked stLoaded (.ok (true, ""))
      "n2").1 (mkHost (.ok ("doc1", "Doc One")) (.ok respOK) thOK scOK
      (.ok ("n2", "t")) upOK upOK okBool okBool okBool)).2 = 0 ∧
    pushCount (tick fp0 (on_flowchart_node_clicked stLoaded (.ok (true, ""))
      "n2").1 (mkHost (.ok ("doc1", "Doc One")) (.ok respOK) thOK scOK
      (.ok ("n2", "t")) upOK upOK okBool okBool okBool)).2 = 0 ∧
    (tick fp0 (on_flowchart_node_clicked stLoaded (.ok (true, "")) "n2").1
      (mkHost (.ok ("doc1", "Doc One")) (.ok respOK) thOK scOK
      (.ok ("n2", "t")) upOK upOK okBool okBool
      okBool)).1.last_selected_node_id = some "n2" :=
  C2_panel_click_single_relay fp0 stLoaded "n2" "" "t" "doc1" "Doc One"
    (.ok respOK) thOK scOK upOK upOK okBool okBool okBool
    rfl rfl (by decide) (by decide) (by decide)

/-- A no-document state used by the C1 counterexample: connected, panel
registered, host previously reported an empty dialog id. -/
def stEmpty : PState :=
  { hasClient := true, running := true, current_dialog_id := some "",
    current_dialog_name := some "", last_structure_hash := none,
    last_selected_node_id := some "n1", panel_registered := true,
    inited := true }

/-- C1 counterexample: after a document-id change to doc1 the switch tick
pushes once but records NO fingerprint, so the very next poll tick — which
fetches an identical structure — pushes AGAIN (1, not the claimed 0): two
render pushes for one detected change. -/
theorem C1_counterexample :
    pushCount (tick fp0 stEmpty (mkHost (.ok ("doc1", "Doc One")) (.ok respOK)
      thOK scOK (.ok ("", "")) upOK upOK okBool okBool okBool)).2 = 1 ∧
    (tick fp0 stEmpty (mkHost (.ok ("doc1", "Doc One")) (.ok respOK)
      thOK scOK (.ok ("", "")) upOK upOK okBool okBool
      okBool)).1.last_structure_hash = none ∧
    pushCount (tick fp0 (tick fp0 stEmpty (mkHost (.ok ("doc1", "Doc One"))
      (.ok respOK) thOK scOK (.ok ("", "")) upOK upOK okBool okBool
      okBool)).1 (mkHost (.ok ("doc1", "Doc One")) (.ok respOK) thOK scOK
      (.ok ("", "")) upOK upOK okBool okBool okBool)).2 = 1 := by
  refine ⟨by decide, by decide, by decide⟩

/-- C1 (amended): a document-id change to a non-empty id makes the switch
tick fetch the structure, render and push exactly once, but the content
fingerprint is NOT recorded (it stays cleared); therefore the next poll tick
that fetches an identical structure pushes exactly once more, and only that
second tick records the fingerprint, after which a third identical fetch
pushes nothing. -/
theorem C1_switch_renders_twice
    (fp : StructDict → Nat) (st : PState) (d nm s0 : String)
    (sf : Except String StructureResponse)
    (th : Except String ThemeResponse) (sc : Except String SpeakerColorsResponse)
    (sn up : Except String (Bool × String)) (cp nt po : Except String Bool)
    (hc : st.hasClient = true) (hr : st.panel_registered = true)
    (hneq : st.current_dialog_id ≠ some d) (hd : d ≠ "")
    (hs0 : st.last_selected_node_id = some s0) (hs0ne : s0 ≠ "")
    (hsucc : pyGetBool (client_get_dialog_structure sf).1 "success" = true) :
    pushCount (tick fp st (mkHost (.ok (d, nm)) sf th sc (.ok ("", ""))
      sn up cp nt po)).2 = 1 ∧
    (tick fp st (mkHost (.ok (d, nm)) sf th sc (.ok ("", ""))
      sn up cp nt po)).1.last_structure_hash = none ∧
    pushCount (tick fp (tick fp st (mkHost (.ok (d, nm)) sf th sc (.ok ("", ""))
      sn up cp nt po)).1 (mkHost (.ok (d, nm)) sf th sc (.ok ("", ""))
      sn up cp nt po)).2 = 1 ∧
    (tick fp (tick fp st (mkHost (.ok (d, nm)) sf th sc (.ok ("", ""))
      sn up cp nt po)).1 (mkHost (.ok (d, nm)) sf th sc (.ok ("", ""))
      sn up cp nt po)).1.last_structure_hash =
      some (fp (client_get_dialog_structure sf).1) ∧
    pushCount (tick fp (tick fp (tick fp st (mkHost (.ok (d, nm)) sf th sc
      (.ok ("", "")) sn up cp nt po)).1 (mkHost (.ok (d, nm)) sf th sc
      (.ok ("", "")) sn up cp nt po)).1 (mkHost (.ok (d, nm)) sf th sc
      (.ok ("", "")) sn up cp nt po)).2 = 0 := by
  have hre1 := refresh_switch fp st
    (mkHost (.ok (d, nm)) sf th sc (.ok ("", "")) sn up cp nt po) d nm hc rfl
    hneq hd
  have hsw1 : (render_flowchart (switchState st d nm)
      (mkHost (.ok (d, nm)) sf th sc (.ok ("", "")) sn up cp nt po)).1 =
      switchState st d nm :=
    render_flowchart_state _ _ (by simp [switchState, hs0, optTruthy, hs0ne])
  have hpu1 : pushCount (render_flowchart (switchState st d nm)
      (mkHost (.ok (d, nm)) sf th sc (.ok ("", "")) sn up cp nt po)).2 = 1 :=
    render_flowchart_pushCount _ _ (by simp [switchState, hc])
      (by simp [switchState, hr])
  have t1state : (tick fp st (mkHost (.ok (d, nm)) sf th sc (.ok ("", ""))
      sn up cp nt po)).1 = switchState st d nm := by
    simp only [tick]
    simp only [mkHost] at hre1 hsw1 ⊢
    rw [hre1, hsw1]
    rw [if_pos (show (switchState st d nm).hasClient = true by
      simp [switchState, hc])]
    rw [if_neg (by simp [client_get_selected_node])]
  have t1push : pushCount (tick fp st (mkHost (.ok (d, nm)) sf th sc
      (.ok ("", "")) sn up cp nt po)).2 = 1 := by
    simp only [tick]
    simp only [mkHost] at hre1 hsw1 hpu1 ⊢
    rw [hre1, hsw1]
    rw [if_pos (show (switchState st d nm).hasClient = true by
      simp [switchState, hc])]
    rw [if_neg (by simp [client_get_selected_node])]
    simp [client_get_selected_node, pushCount_append, pushCount, countP,
      isPushEv]
    exact hpu1
  have hre2 := refresh_steady_change fp (switchState st d nm)
    (mkHost (.ok (d, nm)) sf th sc (.ok ("", "")) sn up cp nt po) d nm
    (by simp [switchState, hc]) rfl (by simp [switchState]) hd hsucc
    (by simp [switchState])
  have hsw2 : (render_flowchart_with_data
      (cacheHash (switchState st d nm) (fp (client_get_dialog_structure sf).1))
      (mkHost (.ok (d, nm)) sf th sc (.ok ("", "")) sn up cp nt po)
      (client_get_dialog_structure sf).1).1 =
      cacheHash (switchState st d nm) (fp (client_get_dialog_structure sf).1) :=
    render_state _ _ _
      (by simp [cacheHash, switchState, hs0, optTruthy, hs0ne])
  have hpu2 : pushCount (render_flowchart_with_data
      (cacheHash (switchState st d nm) (fp (client_get_dialog_structure sf).1))
      (mkHost (.ok (d, nm)) sf th sc (.ok ("", "")) sn up cp nt po)
      (client_get_dialog_structure sf).1).2 = 1 :=
    render_pushCount _ _ _ (by simp [cacheHash, switchState, hc])
      (by simp [cacheHash, switchState, hr])
  have t2state : (tick fp (switchState st d nm) (mkHost (.ok (d, nm)) sf th sc
      (.ok ("", "")) sn up cp nt po)).1 =
      cacheHash (switchState st d nm)
        (fp (client_get_dialog_structure sf).1) := by
    simp only [tick]
    simp only [mkHost] at hre2 hsw2 ⊢
    rw [hre2, hsw2]
    rw [if_pos (show (cacheHash (switchState st d nm)
      (fp (client_get_dialog_structure sf).1)).hasClient = true by
      simp [cacheHash, switchState, hc])]
    rw [if_neg (by simp [client_get_selected_node])]
  have t2push : pushCount (tick fp (switchState st d nm)
      (mkHost (.ok (d, nm)) sf th sc (.ok ("", "")) sn up cp nt po)).2 = 1 := by
    simp only [tick]
    simp only [mkHost] at hre2 hsw2 hpu2 ⊢
    rw [hre2, hsw2]
    rw [if_pos (show (cacheHash (switchState st d nm)
      (fp (client_get_dialog_structure sf).1)).hasClient = true by
      simp [cacheHash, switchState, hc])]
    rw [if_neg (by simp [client_get_selected_node])]
    simp [client_get_selected_node, pushCount_append, pushCount, countP,
      isPushEv, filter_push_get_dialog_structure]
    exact hpu2
  have hre3 := refresh_steady_nochange fp
    (cacheHash (switchState st d nm) (fp (client_get_dialog_structure sf).1))
    (mkHost (.ok (d, nm)) sf th sc (.ok ("", "")) sn up cp nt po) d nm
    (by simp [cacheHash, switchState, hc]) rfl
    (by simp [cacheHash, switchState]) hd hsucc (by simp [cacheHash, mkHost])
  have t3push : pushCount (tick fp
      (cacheHash (switchState st d nm) (fp (client_get_dialog_structure sf).1))
      (mkHost (.ok (d, nm)) sf th sc (.ok ("", "")) sn up cp nt po)).2 = 0 := by
    simp only [tick]
    simp only [mkHost] at hre3 ⊢
    rw [hre3]
    rw [if_pos (show (cacheHash (switchState st d nm)
      (fp (client_get_dialog_structure sf).1)).hasClient = true by
      simp [cacheHash, switchState, hc])]
    rw [if_neg (by simp [client_get_selected_node])]
    simp [client_get_selected_node, pushCount_append, pushCount, countP,
      isPushEv, filter_push_get_dialog_structure]
  refine ⟨t1push, ?_, ?_, ?_, ?_⟩
  · rw [t1state]
    simp [switchState]
  · rw [t1state]
    exact t2push
  · rw [t1state, t2state]
    simp [cacheHash]
  · rw [t1state, t2state]
    exact t3push

/-- Witness for C1 (amended) on the concrete no-document-to-doc1 switch. -/
theorem C1_witness :
    pushCount (tick fp0 stEmpty (mkHost (.ok ("doc1", "Doc One")) (.ok respOK)
      thOK scOK (.ok ("", "")) upOK upOK okBool okBool okBool)).2 = 1 ∧
    (tick fp0 stEmpty (mkHost (.ok ("doc1", "Doc One")) (.ok respOK)
      thOK scOK (.ok ("", "")) upOK upOK okBool okBool
      okBool)).1.last_structure_hash = none ∧
    pushCount (tick fp0 (tick fp0 stEmpty (mkHost (.ok ("doc1", "Doc One"))
      (.ok respOK) thOK scOK (.ok ("", "")) upOK upOK okBool okBool
      okBool)).1 (mkHost (.ok ("doc1", "Doc One")) (.ok respOK) thOK scOK
      (.ok ("", "")) upOK upOK okBool okBool okBool)).2 = 1 ∧
    (tick fp0 (tick fp0 stEmpty (mkHost (.ok ("doc1", "Doc One")) (.ok respOK)
      thOK scOK (.ok ("", "")) upOK upOK okBool okBool okBool)).1
      (mkHost (.ok ("doc1", "Doc One")) (.ok respOK) thOK scOK (.ok ("", ""))
      upOK upOK okBool okBool okBool)).1.last_structure_hash =
      some (fp0 (client_get_dialog_structure (.ok respOK)).1) ∧
    pushCount (tick fp0 (tick fp0 (tick fp0 stEmpty (mkHost
      (.ok ("doc1", "Doc One")) (.ok respOK) thOK scOK (.ok ("", "")) upOK
      upOK okBool okBool okBool)).1 (mkHost (.ok ("doc1", "Doc One"))
      (.ok respOK) thOK scOK (.ok ("", "")) upOK upOK okBool okBool
      okBool)).1 (mkHost (.ok ("doc1", "Doc One")) (.ok respOK) thOK scOK
      (.ok ("", "")) upOK upOK okBool okBool okBool)).2 = 0 :=
  C1_switch_renders_twice fp0 stEmpty "doc1" "Doc One" "n1" (.ok respOK)
    thOK scOK upOK upOK okBool okBool okBool
    rfl rfl (by decide) (by decide) rfl (by decide) (by decide)

/-- Event-class predicate: an IsPanelOpen request (never issued by this
plugin). -/
def isPanelOpenEv : Event → Bool
  | .rpcIsPanelOpen _ => true
  | _ => false

/-- C9 counterexample: a full render cycle (one push issued) contains no
GetPanelSetting request at all — the plugin never fetches the
autoRefreshEnabled/syncSelectionEnabled panel preferences. -/
theorem C9_counterexample :
    pushCount (render_flowchart_with_data stLoaded (mkHost
      (.ok ("doc1", "Doc One")) (.ok respOK) thOK scOK (.ok ("", "")) upOK
      upOK okBool okBool okBool)
      (client_get_dialog_structure (.ok respOK)).1).2 = 1 ∧
    (render_flowchart_with_data stLoaded (mkHost (.ok ("doc1", "Doc One"))
      (.ok respOK) thOK scOK (.ok ("", "")) upOK upOK okBool okBool okBool)
      (client_get_dialog_structure (.ok respOK)).1).2.filter
      isPanelSettingEv = [] := by
  refine ⟨by decide, by decide⟩

theorem filter_tp_get_theme (o : Except String ThemeResponse) :
    (client_get_theme o).2.filter isThemeOrPushEv = [Event.rpcGetTheme] := by
  cases o <;> rfl

theorem filter_ps_get_theme (o : Except String ThemeResponse) :
    (client_get_theme o).2.filter isPanelSettingEv = [] := by
  cases o <;> rfl

theorem filter_tp_gen_colors (o : Except String SpeakerColorsResponse)
    (ns : List NodeDict) :
    (generate_speaker_colors true o ns).2.filter isThemeOrPushEv = [] := by
  cases o <;> rfl

theorem filter_ps_gen_colors (o : Except String SpeakerColorsResponse)
    (ns : List NodeDict) :
    (generate_speaker_colors true o ns).2.filter isPanelSettingEv = [] := by
  cases o <;> rfl

theorem filter_tp_get_selected_node (o : Except String (String × String)) :
    (client_get_selected_node o).2.filter isThemeOrPushEv = [] := by
  cases o <;> rfl

theorem filter_ps_get_selected_node (o : Except String (String × String)) :
    (client_get_selected_node o).2.filter isPanelSettingEv = [] := by
  cases o <;> rfl

theorem filter_tp_update_panel (o : Except String (Bool × String))
    (p c : String) (ct : Content) :
    (client_update_panel_content o p c ct).2.filter isThemeOrPushEv =
      [Event.push p c ct] := by
  cases o <;> rfl

theorem filter_ps_update_panel (o : Except String (Bool × String))
    (p c : String) (ct : Content) :
    (client_update_panel_content o p c ct).2.filter isPanelSettingEv = [] := by
  cases o <;> rfl

/-- C9 (amended): every render cycle fetches the host theme (and the speaker
colors) before pushing, and issues exactly one push; it never reads a panel
preference — among the GetTheme/push events of the cycle there are exactly
two, the first being the GetTheme request — and the client wrapper has no
preference-writing RPC at all, so no preference is ever written. -/
theorem C9_render_cycle_theme_before_push
    (st : PState) (d : StructDict)
    (cd sel : Except String (String × String))
    (sf : Except String StructureResponse)
    (th : Except String ThemeResponse) (sc : Except String SpeakerColorsResponse)
    (sn up : Except String (Bool × String)) (cp nt po : Except String Bool)
    (hc : st.hasClient = true) (hr : st.panel_registered = true) :
    (render_flowchart_with_data st (mkHost cd sf th sc sel sn up cp nt
      po) d).2.filter isPanelSettingEv = [] ∧
    countP isThemeOrPushEv (render_flowchart_with_data st (mkHost cd sf th sc
      sel sn up cp nt po) d).2 = 2 ∧
    ((render_flowchart_with_data st (mkHost cd sf th sc sel sn up cp nt
      po) d).2.filter isThemeOrPushEv).head? = some Event.rpcGetTheme ∧
    pushCount (render_flowchart_with_data st (mkHost cd sf th sc sel sn up cp
      nt po) d).2 = 1 := by
  refine ⟨?_, ?_, ?_, render_pushCount st _ d hc hr⟩ <;>
    (simp only [render_flowchart_with_data]
     rw [if_neg (by simp [hc, hr])]
     simp only [mkHost, hc]
     repeat' split
     all_goals simp [List.filter_append, countP, isThemeOrPushEv,
       isPanelSettingEv, filter_tp_get_theme, filter_tp_gen_colors,
       filter_tp_get_selected_node, filter_tp_update_panel,
       filter_ps_get_theme, filter_ps_gen_colors, filter_ps_get_selected_node,
       filter_ps_update_panel])

/-- Witness for C9 (amended) at a concrete render cycle. -/
theorem C9_witness :
    (render_flowchart_with_data stLoaded (mkHost (.ok ("doc1", "Doc One"))
      (.ok respOK) thOK scOK (.ok ("", "")) upOK upOK okBool okBool okBool)
      (client_get_dialog_structure (.ok respOK)).1).2.filter
      isPanelSettingEv = [] ∧
    countP isThemeOrPushEv (render_flowchart_with_data stLoaded (mkHost
      (.ok ("doc1", "Doc One")) (.ok respOK) thOK scOK (.ok ("", "")) upOK
      upOK okBool okBool okBool)
      (client_get_dialog_structure (.ok respOK)).1).2 = 2 ∧
    ((render_flowchart_with_data stLoaded (mkHost (.ok ("doc1", "Doc One"))
      (.ok respOK) thOK scOK (.ok ("", "")) upOK upOK okBool okBool okBool)
      (client_get_dialog_structure (.ok respOK)).1).2.filter
      isThemeOrPushEv).head? = some Event.rpcGetTheme ∧
    pushCount (render_flowchart_with_data stLoaded (mkHost
      (.ok ("doc1", "Doc One")) (.ok respOK) thOK scOK (.ok ("", "")) upOK
      upOK okBool okBool okBool)
      (client_get_dialog_structure (.ok respOK)).1).2 = 1 :=
  C9_render_cycle_theme_before_push stLoaded
    (client_get_dialog_structure (.ok respOK)).1 (.ok ("doc1", "Doc One"))
    (.ok ("", "")) (.ok respOK) thOK scOK upOK upOK okBool okBool okBool
    rfl rfl

theorem running_render (st : PState) (host : HostTick) (d : StructDict) :
    (render_flowchart_with_data st host d).1.running = st.running := by
  simp only [render_flowchart_with_data]
  repeat' split
  all_goals rfl

theorem running_render_fc (st : PState) (host : HostTick) :
    (render_flowchart st host).1.running = st.running := by
  rw [render_flowchart]
  split
  · rfl
  · simp [running_render]

theorem running_on_changed (st : PState) (host : HostTick) :
    (on_dialog_changed st host).1.running = st.running := by
  rw [on_dialog_changed]
  split
  · rfl
  · simp [running_render_fc]

theorem running_refresh (fp : StructDict → Nat) (st : PState)
    (host : HostTick) : (refresh_dialog_state fp st host).1.running =
      st.running := by
  simp only [refresh_dialog_state]
  split
  · rfl
  · split
    · split
      · simp [running_on_changed]
      · rfl
    · split
      · split
        · split
          · simp [running_render]
          · rfl
        · rfl
      · rfl

theorem running_tick (fp : StructDict → Nat) (st : PState) (host : HostTick) :
    (tick fp st host).1.running = st.running := by
  simp only [tick]
  repeat' split
  all_goals simp [running_refresh]

/-- C6 counterexample: the host reports the panel is no longer open
(IsPanelOpen would answer False), yet the poll tick leaves the loop running
flag untouched and never even issues an IsPanelOpen request, and the shutdown
sequence still issues BOTH the ClosePanel (unregister) and the farewell
ShowNotification calls — nothing is suppressed. -/
theorem C6_counterexample :
    (tick fp0 stLoaded (mkHost (.ok ("doc1", "Doc One")) (.ok respOK) thOK
      scOK (.ok ("", "")) upOK upOK okBool okBool (.ok false))).1.running
      = true ∧
    (tick fp0 stLoaded (mkHost (.ok ("doc1", "Doc One")) (.ok respOK) thOK
      scOK (.ok ("", "")) upOK upOK okBool okBool (.ok false))).2.filter
      isPanelOpenEv = [] ∧
    Event.rpcClosePanel "flowchart-view" ∈ (shutdown stLoaded (mkHost
      (.ok ("doc1", "Doc One")) (.ok respOK) thOK scOK (.ok ("", "")) upOK
      upOK okBool okBool (.ok false))).2 ∧
    Event.rpcShowNotification "Flowchart View" "Plugin stopped." ∈
      (shutdown stLoaded (mkHost (.ok ("doc1", "Doc One")) (.ok respOK) thOK
      scOK (.ok ("", "")) upOK upOK okBool okBool (.ok false))).2 := by
  refine ⟨by decide, by decide, by decide, by decide⟩

/-- C6 (amended): the loop has no panel-closed detection: a poll tick is
entirely independent of the host's panel-open status and never changes the
running flag; the shutdown sequence — however it is reached (interrupt
included) — always attempts both the ClosePanel unregister (when the panel
was registered) and the farewell notification, for every RPC outcome
including failures, which the client wrappers and the surrounding try/except
absorb without raising. -/
theorem C6_shutdown_always_attempts_both
    (fp : StructDict → Nat) (st : PState)
    (cd sel : Except String (String × String))
    (sf : Except String StructureResponse)
    (th : Except String ThemeResponse) (sc : Except String SpeakerColorsResponse)
    (sn up : Except String (Bool × String)) (cp nt po po2 : Except String Bool)
    (hc : st.hasClient = true) (hr : st.panel_registered = true) :
    tick fp st (mkHost cd sf th sc sel sn up cp nt po) =
      tick fp st (mkHost cd sf th sc sel sn up cp nt po2) ∧
    (tick fp st (mkHost cd sf th sc sel sn up cp nt po)).1.running =
      st.running ∧
    Event.rpcClosePanel "flowchart-view" ∈
      (shutdown st (mkHost cd sf th sc sel sn up cp nt po)).2 ∧
    Event.rpcShowNotification "Flowchart View" "Plugin stopped." ∈
      (shutdown st (mkHost cd sf th sc sel sn up cp nt po)).2 := by
  refine ⟨rfl, running_tick fp st _, ?_, ?_⟩ <;>
    (simp only [shutdown, mkHost]
     rw [if_pos (show ({ st with running := false } : PState).hasClient = true
       from hc)]
     rw [if_pos (show ({ st with running := false } : PState).panel_registered
       = true from hr)]
     rcases cp with cpe | cpb <;> rcases nt with nte | ntb <;>
       simp [client_close_panel, client_show_notification])

/-- Witness for C6 (amended) with both shutdown-path RPCs failing: the calls
are still attempted. -/
theorem C6_witness :
    tick fp0 stLoaded (mkHost (.ok ("doc1", "Doc One")) (.ok respOK) thOK scOK
      (.ok ("", "")) upOK upOK (.error "gone") (.error "gone") (.ok false)) =
      tick fp0 stLoaded (mkHost (.ok ("doc1", "Doc One")) (.ok respOK) thOK
      scOK (.ok ("", "")) upOK upOK (.error "gone") (.error "gone")
      (.ok true)) ∧
    (tick fp0 stLoaded (mkHost (.ok ("doc1", "Doc One")) (.ok respOK) thOK
      scOK (.ok ("", "")) upOK upOK (.error "gone") (.error "gone")
      (.ok false))).1.running = stLoaded.running ∧
    Event.rpcClosePanel "flowchart-view" ∈ (shutdown stLoaded (mkHost
      (.ok ("doc1", "Doc One")) (.ok respOK) thOK scOK (.ok ("", "")) upOK
      upOK (.error "gone") (.error "gone") (.ok false))).2 ∧
    Event.rpcShowNotification "Flowchart View" "Plugin stopped." ∈
      (shutdown stLoaded (mkHost (.ok ("doc1", "Doc One")) (.ok respOK) thOK
      scOK (.ok ("", "")) upOK upOK (.error "gone") (.error "gone")
      (.ok false))).2 :=
  C6_shutdown_always_attempts_both fp0 stLoaded (.ok ("doc1", "Doc One"))
    (.ok ("", "")) (.ok respOK) thOK scOK upOK upOK (.error "gone")
    (.error "gone") (.ok false) (.ok true) rfl rfl
